import Mathlib

/-
Shallow embedding of `src/pyxel_reload/__init__.py` (the pyxel-reload
live-reload harness).

Modelling conventions:
* The module-level globals `app_module` and `error` together with the
  observable console / pyxel output form an explicit state `St`.  Console
  prints and pyxel drawing calls are recorded in an effect trace so that
  "no side effects" is a provable statement.
* A Python callable that may raise is embedded as a state transformer
  returning `St × Except Exc Unit`; `Except.error e` is a raised
  exception propagating out of the callable.
* A Python exception object is the record `Exc`: its type name, message,
  whether it is a `SyntaxError` (with its `lineno`, an `Option` because
  `SyntaxError.lineno` may be `None`), the line numbers of its traceback
  frames (`tb`, innermost last; empty when `__traceback__` is `None`),
  and the pre-rendered `traceback.format_exception` text.
* The application module object is `AppModule`: its `__file__`, an
  identity tag `id` distinguishing one loaded module object from another,
  the outcome of calling its `update` / `draw` / optional `on_unload`
  callables (invoking one is recorded in the trace together with the
  owner's identity).  `importlib.reload` is an environment parameter
  `reload : AppModule → Except Exc AppModule`: it either raises or
  produces the re-executed module object.
-/

namespace PyxelReload

/-- A Python exception value as observed by `handle_error`. -/
structure Exc where
  typeName : String
  message : String
  isSyntaxError : Bool
  lineno : Option Nat
  tb : List Nat
  formatted : String
deriving Repr, DecidableEq

instance : DecidableEq (Except Exc Unit) := fun a b =>
  match a, b with
  | Except.ok (), Except.ok () => isTrue rfl
  | Except.ok (), Except.error _ => isFalse (fun h => Except.noConfusion h)
  | Except.error _, Except.ok () => isFalse (fun h => Except.noConfusion h)
  | Except.error e1, Except.error e2 =>
    if h : e1 = e2 then isTrue (by rw [h])
    else isFalse (fun hh => h (by cases hh; rfl))

/-- A loaded application module object (`types.ModuleType`). -/
structure AppModule where
  id : Nat
  file : String
  updateResult : Except Exc Unit
  drawResult : Except Exc Unit
  on_unload : Option (Except Exc Unit)
deriving Repr, DecidableEq

/-- One observable side effect: a console print, a pyxel drawing call, or
the invocation of one of the application module's callables. -/
inductive Effect where
  | printLine (s : String)
  | cls (col : Nat)
  | text (x y : Nat) (s : String) (col : Nat)
  | callUpdate (id : Nat)
  | callDraw (id : Nat)
  | callOnUnload (id : Nat)
deriving Repr, DecidableEq

/-- The harness state: the globals `app_module` and `error` of
`pyxel_reload/__init__.py` plus the accumulated effect trace. -/
structure St where
  app_module : Option AppModule
  error : Bool
  trace : List Effect
deriving Repr, DecidableEq

/-- Append observable effects to the trace. -/
def emit (s : St) (es : List Effect) : St :=
  { s with trace := s.trace ++ es }

/-- The ANSI clear sequence printed by the harness. -/
def consoleClear : String :=
  "\x1b[H\x1b[J"

/-- `textwrap.indent(text, "\t")`: prefix each line that is not pure
whitespace with a tab. -/
def indentTab (text : String) : String :=
  String.intercalate "\n"
    ((text.splitOn "\n").map (fun l => if l.trim = "" then l else "\t" ++ l))

/-- How Python renders the line number inside the f-string: an `int`
prints as its digits, `None` prints as the text `None`. -/
def fmtLineno : Option Nat → String
  | some n => toString n
  | none => "None"

/-- The `IndexError("list index out of range")` raised by `[-1]` on an
empty traceback list. -/
def indexError : Exc :=
  { typeName := "IndexError"
    message := "list index out of range"
    isSyntaxError := false
    lineno := none
    tb := []
    formatted := "IndexError: list index out of range\n" }

/-- The `AttributeError` Python would raise on `app_module.__file__` when
`app_module` is `None` (unreachable behind the watch loop's batch guard). -/
def attributeError : Exc :=
  { typeName := "AttributeError"
    message := "NoneType object has no attribute"
    isSyntaxError := false
    lineno := none
    tb := []
    formatted := "AttributeError\n" }

/-- The console and pyxel output `handle_error` produces once the line
number `ln` has been extracted. -/
def errorEffects (exc : Exc) (ln : String) : List Effect :=
  [Effect.printLine consoleClear,
   Effect.printLine "⚠️ Error during refresh",
   Effect.printLine (indentTab exc.formatted),
   Effect.cls 0,
   Effect.text 10 10 "Error" 8,
   Effect.text 10 20 (exc.typeName ++ " at line number " ++ ln) 8]

/-- `handle_error(exc)` from the source: set `error = True`, extract a
line number (the exception's own `lineno` for a `SyntaxError`, otherwise
the last traceback frame's — `[-1]` raising `IndexError` when the
traceback is empty), print the banner and indented trace, and draw the
overlay.  The returned `Except` is an exception escaping `handle_error`
itself. -/
def handle_error (exc : Exc) (s : St) : St × Except Exc Unit :=
  let s1 : St := { s with error := true }
  let lineRes : Except Exc String :=
    if exc.isSyntaxError then
      Except.ok (fmtLineno exc.lineno)
    else
      match exc.tb.getLast? with
      | some n => Except.ok (toString n)
      | none => Except.error indexError
  match lineRes with
  | Except.error e => (s1, Except.error e)
  | Except.ok ln => (emit s1 (errorEffects exc ln), Except.ok ())

/-- `handle_successful_reload()` from the source: clear the `error`
flag, clear the console and print the success banner. -/
def handle_successful_reload (s : St) : St :=
  emit { s with error := false }
    [Effect.printLine consoleClear,
     Effect.printLine "✨ Refresh successful"]

/-- `catch_errors(func)` from the source: the returned wrapper returns
immediately while `error` is set; otherwise it calls `func`, and on an
exception hands it to `handle_error` (whose own outcome — normally `ok` —
is what escapes the wrapper). -/
def catch_errors (func : St → St × Except Exc Unit) : St → St × Except Exc Unit :=
  fun s =>
    if s.error then (s, Except.ok ())
    else
      match func s with
      | (s2, Except.ok _) => (s2, Except.ok ())
      | (s2, Except.error e) => handle_error e s2

/-- Body of the decorated `update`: delegate to `app_module.update()`
when a module is loaded, else fall through. -/
def update_inner (s : St) : St × Except Exc Unit :=
  match s.app_module with
  | some m => (emit s [Effect.callUpdate m.id], m.updateResult)
  | none => (s, Except.ok ())

/-- Body of the decorated `draw`. -/
def draw_inner (s : St) : St × Except Exc Unit :=
  match s.app_module with
  | some m => (emit s [Effect.callDraw m.id], m.drawResult)
  | none => (s, Except.ok ())

/-- The fault-wrapped per-frame `update` (the `@catch_errors` decorated
function handed to pyxel's frame driver). -/
def update : St → St × Except Exc Unit :=
  catch_errors update_inner

/-- The fault-wrapped per-frame `draw`. -/
def draw : St → St × Except Exc Unit :=
  catch_errors draw_inner

/-- The `try:` block of `watch_for_changes` for a relevant file: call
`on_unload` when the module has one (a raise aborts the reload), then
`importlib.reload`; on success rebind `app_module` and run
`handle_successful_reload`, on any exception run `handle_error`. -/
def reload_module (reload : AppModule → Except Exc AppModule) (m : AppModule)
    (s : St) : St × Except Exc Unit :=
  match reload m with
  | Except.ok m2 =>
    (handle_successful_reload { s with app_module := some m2 }, Except.ok ())
  | Except.error e => handle_error e s

def try_reload (reload : AppModule → Except Exc AppModule) (m : AppModule)
    (s : St) : St × Except Exc Unit :=
  match m.on_unload with
  | none => reload_module reload m s
  | some r =>
    let s1 := emit s [Effect.callOnUnload m.id]
    match r with
    | Except.ok _ => reload_module reload m s1
    | Except.error e => handle_error e s1

/-- `watchfiles.Change`: the kind tag of a change event. -/
inductive ChangeKind where
  | added
  | modified
  | deleted
deriving Repr, DecidableEq

/-- A `(Change, path)` pair as yielded by `watchfiles.watch`. -/
structure ChangeEvent where
  kind : ChangeKind
  path : String
deriving Repr, DecidableEq

/-- Python's `str.endswith(suffix)`: the suffix's characters are a
suffix of the string's characters (stated over the character lists so
that it evaluates by kernel reduction). -/
def strEndsWith (s suffix : String) : Bool :=
  List.isSuffixOf suffix.data s.data

/-- The body of the inner `for _, filename in changes` loop of
`watch_for_changes`: the kind is discarded; the filename is compared with
`app_module.__file__` and the `.pyxres` suffix; only a relevant filename
enters the `try_reload` block.  (`s.app_module = none` cannot be reached
through `process_batch`; Python would raise `AttributeError` there.) -/
def process_change (reload : AppModule → Except Exc AppModule) (s : St)
    (ev : ChangeEvent) : St × Except Exc Unit :=
  match s.app_module with
  | none => (s, Except.error attributeError)
  | some m =>
    if ev.path == m.file || strEndsWith ev.path ".pyxres" then
      try_reload reload m s
    else
      (s, Except.ok ())

/-- Fold `process_change` over the events of one batch; an exception
escaping an iteration aborts the loop (and would kill the watch thread). -/
def process_changes (reload : AppModule → Except Exc AppModule) :
    St → List ChangeEvent → St × Except Exc Unit
  | s, [] => (s, Except.ok ())
  | s, ev :: rest =>
    match process_change reload s ev with
    | (s2, Except.ok _) => process_changes reload s2 rest
    | (s2, Except.error e) => (s2, Except.error e)

/-- One iteration of the outer `for changes in watch(".")` loop:
`if not app_module: continue` drops the whole batch before any module is
loaded, otherwise every event of the batch is processed in order. -/
def process_batch (reload : AppModule → Except Exc AppModule) (s : St)
    (changes : List ChangeEvent) : St × Except Exc Unit :=
  match s.app_module with
  | none => (s, Except.ok ())
  | some _ => process_changes reload s changes

/-- The pyxel-side state touched by `patch_pyxel`'s init guard: the
`initialized` sentinel attribute (`getattr` default `False`), the process
working directory, and an abstract remainder standing for whatever else
the real `pyxel.init` mutates. -/
structure PyxelSt where
  initialized : Bool
  cwd : String
  extra : Nat
deriving Repr, DecidableEq

/-- The `wrapper` produced by `wrap_init(func)`: a no-op once
`pyxel.initialized` is set; on the first call it saves the working
directory, runs the real `func`, restores the directory and sets the
sentinel. -/
def wrapped_init (func : PyxelSt → PyxelSt) (p : PyxelSt) : PyxelSt :=
  if p.initialized then p
  else
    let cwd := p.cwd
    let p1 := func p
    let p2 : PyxelSt := { p1 with cwd := cwd }
    { p2 with initialized := true }

/-- A caught Python exception always carries information a raise gives
it: a `SyntaxError` has its own `lineno` slot, every other exception that
actually propagated has at least one traceback frame.  Exceptions handed
to `handle_error` by the two `except` clauses satisfy this. -/
def Exc.wellRaised (e : Exc) : Bool :=
  e.isSyntaxError || !e.tb.isEmpty

/-- Spec-side definition (for comparison with `handle_error`): the Error
Reporter's line-number extraction rule in the spec's words — a
syntax-level error's own reported line, otherwise the innermost (last)
traceback frame's line. -/
def extracted_line (exc : Exc) : Option Nat :=
  if exc.isSyntaxError then exc.lineno else exc.tb.getLast?

/-! Concrete fixtures used by witnesses and counterexamples. -/

/-- A loaded application module whose callables return normally. -/
def mOld : AppModule :=
  { id := 0
    file := "game.py"
    updateResult := Except.ok ()
    drawResult := Except.ok ()
    on_unload := none }

/-- The module object produced by a successful reload. -/
def mNew : AppModule :=
  { id := 1
    file := "game.py"
    updateResult := Except.ok ()
    drawResult := Except.ok ()
    on_unload := none }

/-- `ValueError("boom")` raised at line 42 (innermost frame). -/
def excBoom : Exc :=
  { typeName := "ValueError"
    message := "boom"
    isSyntaxError := false
    lineno := none
    tb := [7, 42]
    formatted := "ValueError: boom\n" }

/-- A `ValueError` that was never raised: `__traceback__` is `None`. -/
def excNoTb : Exc :=
  { typeName := "ValueError"
    message := "boom"
    isSyntaxError := false
    lineno := none
    tb := []
    formatted := "ValueError: boom\n" }

/-- A `SyntaxError` reporting line 3. -/
def excSyn : Exc :=
  { typeName := "SyntaxError"
    message := "invalid syntax"
    isSyntaxError := true
    lineno := some 3
    tb := []
    formatted := "SyntaxError: invalid syntax\n" }

/-- Startup state: no module imported yet, no fault, empty trace. -/
def st0 : St := { app_module := none, error := false, trace := [] }

/-- Steady state with `mOld` loaded and no fault. -/
def stLoaded : St := { app_module := some mOld, error := false, trace := [] }

/-- Faulted state with `mOld` loaded. -/
def stFault : St := { app_module := some mOld, error := true, trace := [] }

/-- A reload environment that always succeeds with `mNew`. -/
def reloadOk : AppModule → Except Exc AppModule := fun _ => Except.ok mNew

/-- A reload environment that always raises `excSyn`. -/
def reloadBad : AppModule → Except Exc AppModule := fun _ => Except.error excSyn

/-- The real `pyxel.init` as seen by the guard: it mutates the abstract
runtime state and leaves the process in the caller-derived directory. -/
def initReal : PyxelSt → PyxelSt :=
  fun q => { q with cwd := "app-dir", extra := q.extra + 1 }

/-- Pyxel-side state before any `init` call. -/
def pStart : PyxelSt := { initialized := false, cwd := "tool-dir", extra := 0 }

/-! Helper lemmas about `handle_error`. -/

theorem handle_error_error_true (exc : Exc) (s : St) :
    (handle_error exc s).1.error = true := by
  unfold handle_error
  by_cases hsy : exc.isSyntaxError = true
  · simp [hsy, emit]
  · simp only [Bool.not_eq_true] at hsy
    cases h : exc.tb.getLast? <;> simp [hsy, h, emit]

theorem handle_error_app_module (exc : Exc) (s : St) :
    (handle_error exc s).1.app_module = s.app_module := by
  unfold handle_error
  by_cases hsy : exc.isSyntaxError = true
  · simp [hsy, emit]
  · simp only [Bool.not_eq_true] at hsy
    cases h : exc.tb.getLast? <;> simp [hsy, h, emit]

theorem handle_error_ok_of_wellRaised (exc : Exc) (s : St)
    (h : exc.wellRaised = true) : (handle_error exc s).2 = Except.ok () := by
  unfold handle_error
  by_cases hsy : exc.isSyntaxError = true
  · simp [hsy, emit]
  · simp only [Bool.not_eq_true] at hsy
    have htb : exc.tb ≠ [] := by
      unfold Exc.wellRaised at h
      simp [hsy] at h
      simpa [List.isEmpty_iff] using h
    cases hl : exc.tb.getLast? with
    | none => exact absurd (List.getLast?_eq_none_iff.mp hl) htb
    | some n => simp [hsy, hl, emit]

theorem handle_error_state_of_raise (exc : Exc) (s : St) (e : Exc)
    (h : (handle_error exc s).2 = Except.error e) :
    (handle_error exc s).1 = { s with error := true } := by
  unfold handle_error at h ⊢
  by_cases hsy : exc.isSyntaxError = true
  · simp [hsy, emit] at h
  · simp only [Bool.not_eq_true] at hsy
    cases hl : exc.tb.getLast? <;> simp [hsy, hl, emit] at h ⊢

theorem handle_error_trace_extend (exc : Exc) (s : St) :
    ∃ d, (handle_error exc s).1.trace = s.trace ++ d := by
  unfold handle_error
  by_cases hsy : exc.isSyntaxError = true
  · exact ⟨errorEffects exc (fmtLineno exc.lineno), by simp [hsy, emit]⟩
  · simp only [Bool.not_eq_true] at hsy
    cases hl : exc.tb.getLast? with
    | none => exact ⟨[], by simp [hsy, hl]⟩
    | some n => exact ⟨errorEffects exc (toString n), by simp [hsy, hl, emit]⟩

/-! Claim theorems. -/

/-- C1: the Fault Boundary wrapper built by `catch_errors`: while the
fault flag is set the wrapper returns immediately with the state
untouched (so `op` is never invoked); otherwise it invokes `op`,
propagating a normal return unchanged, and forwarding a raised exception
to `handle_error`, which sets the fault flag; the wrapper itself returns
normally (a caught exception always satisfies `wellRaised` — Python
attaches a traceback to every exception that reaches an `except`
clause). -/
theorem catch_errors_fault_boundary (func : St → St × Except Exc Unit) (s : St) :
    (s.error = true → catch_errors func s = (s, Except.ok ())) ∧
    (s.error = false →
      (∀ s2 u, func s = (s2, Except.ok u) →
        catch_errors func s = (s2, Except.ok ())) ∧
      (∀ s2 e, func s = (s2, Except.error e) →
        catch_errors func s = handle_error e s2 ∧
        (catch_errors func s).1.error = true ∧
        (e.wellRaised = true → (catch_errors func s).2 = Except.ok ()))) := by
  constructor
  · intro he
    simp [catch_errors, he]
  · intro he
    constructor
    · intro s2 u hf
      simp [catch_errors, he, hf]
    · intro s2 e hf
      have hres : catch_errors func s = handle_error e s2 := by
        simp [catch_errors, he, hf]
      refine ⟨hres, ?_, ?_⟩
      · rw [hres]; exact handle_error_error_true e s2
      · intro hw; rw [hres]; exact handle_error_ok_of_wellRaised e s2 hw

/-- C1 witness: a concrete `op` raising `ValueError("boom")` from the
non-faulted loaded state. -/
theorem catch_errors_fault_boundary_witness :
    catch_errors (fun s => (s, Except.error excBoom)) stLoaded
      = handle_error excBoom stLoaded ∧
    (catch_errors (fun s => (s, Except.error excBoom)) stLoaded).1.error = true ∧
    (catch_errors (fun s => (s, Except.error excBoom)) stLoaded).2 = Except.ok () := by
  have h :=
    ((catch_errors_fault_boundary (fun s => (s, Except.error excBoom)) stLoaded).2
      (by decide)).2 stLoaded excBoom rfl
  exact ⟨h.1, h.2.1, h.2.2 (by decide)⟩

/-- C5 counterexample: `handle_error` does raise — a non-syntax exception
whose `__traceback__` is absent makes `traceback.extract_tb(...)[-1]`
raise `IndexError`, so the claim that it never raises for every captured
exception is false. -/
theorem handle_error_raises_on_missing_traceback :
    (handle_error excNoTb st0).2 = Except.error indexError ∧
    (handle_error excNoTb st0).2 ≠ Except.ok () := by
  refine ⟨rfl, ?_⟩
  intro h
  rw [show (handle_error excNoTb st0).2 = Except.error indexError from rfl] at h
  exact Except.noConfusion h

/-- C5 (amended): `handle_error` never raises for every captured
exception that is a syntax error or carries at least one traceback frame
(every exception actually caught by an `except` clause is of this
shape). -/
theorem handle_error_never_raises (exc : Exc) (s : St)
    (h : exc.wellRaised = true) : (handle_error exc s).2 = Except.ok () :=
  handle_error_ok_of_wellRaised exc s h

/-- C5 witness: the concrete raised `ValueError` with a traceback. -/
theorem handle_error_never_raises_witness :
    (handle_error excBoom st0).2 = Except.ok () :=
  handle_error_never_raises excBoom st0 (by decide)

/-- C8: `handle_error` records the fault before doing anything else: the
resulting state always has `error = true`, and if any later step of
`handle_error` itself raises, the state differs from the input only in
the `error` flag — no console or canvas output was produced. -/
theorem handle_error_sets_flag_first (exc : Exc) (s : St) :
    (handle_error exc s).1.error = true ∧
    (∀ e, (handle_error exc s).2 = Except.error e →
      (handle_error exc s).1 = { s with error := true }) :=
  ⟨handle_error_error_true exc s, fun e he => handle_error_state_of_raise exc s e he⟩

/-- C8 witness: the traceback-less `ValueError` makes the reporting step
raise `IndexError`, yet the flag is already set and the trace untouched. -/
theorem handle_error_sets_flag_first_witness :
    (handle_error excNoTb st0).1.error = true ∧
    (handle_error excNoTb st0).1 = { st0 with error := true } :=
  ⟨(handle_error_sets_flag_first excNoTb st0).1,
   (handle_error_sets_flag_first excNoTb st0).2 indexError rfl⟩

/-- C2: when a relevant change's reload attempt raises — either from the
module's `on_unload` hook or from `importlib.reload` itself — the fault
flag is set and `app_module` still references the previous module object,
with its `update`/`draw` bindings untouched; the reference is rebound
only on success. -/
theorem reload_failure_preserves_module (reload : AppModule → Except Exc AppModule)
    (m : AppModule) (s : St) (ev : ChangeEvent)
    (hm : s.app_module = some m)
    (hrel : (ev.path == m.file || strEndsWith ev.path ".pyxres") = true)
    (hfail : (∃ e, m.on_unload = some (Except.error e)) ∨
      ((m.on_unload = none ∨ m.on_unload = some (Except.ok ())) ∧
        ∃ e, reload m = Except.error e)) :
    (process_change reload s ev).1.app_module = some m ∧
    (process_change reload s ev).1.error = true := by
  have hpc : process_change reload s ev = try_reload reload m s := by
    simp [process_change, hm, hrel]
  rw [hpc]
  rcases hfail with ⟨e, hu⟩ | ⟨hu, e, hr⟩
  · have : try_reload reload m s = handle_error e (emit s [Effect.callOnUnload m.id]) := by
      simp [try_reload, hu]
    rw [this]
    exact ⟨by rw [handle_error_app_module]; simpa [emit] using hm,
           handle_error_error_true _ _⟩
  · rcases hu with hu | hu
    · have : try_reload reload m s = handle_error e s := by
        simp [try_reload, hu, reload_module, hr]
      rw [this]
      exact ⟨by rw [handle_error_app_module]; exact hm, handle_error_error_true _ _⟩
    · have : try_reload reload m s
          = handle_error e (emit s [Effect.callOnUnload m.id]) := by
        simp [try_reload, hu, reload_module, hr]
      rw [this]
      exact ⟨by rw [handle_error_app_module]; simpa [emit] using hm,
             handle_error_error_true _ _⟩

/-- C2 witness: `on_unload` raising `ValueError("boom")` on a relevant
change leaves `mOld` loaded and sets the fault flag. -/
theorem reload_failure_preserves_module_witness :
    (process_change reloadOk
      { app_module := some { mOld with on_unload := some (Except.error excBoom) },
        error := false, trace := [] }
      { kind := ChangeKind.modified, path := "game.py" }).1.app_module
      = some { mOld with on_unload := some (Except.error excBoom) } ∧
    (process_change reloadOk
      { app_module := some { mOld with on_unload := some (Except.error excBoom) },
        error := false, trace := [] }
      { kind := ChangeKind.modified, path := "game.py" }).1.error = true :=
  reload_failure_preserves_module reloadOk
    { mOld with on_unload := some (Except.error excBoom) }
    { app_module := some { mOld with on_unload := some (Except.error excBoom) },
      error := false, trace := [] }
    { kind := ChangeKind.modified, path := "game.py" }
    rfl (by decide) (Or.inl ⟨excBoom, rfl⟩)

/-- C3: the relevance filter — a whole batch is dropped with no side
effects while no module is loaded; with a module loaded, an event whose
path neither equals the module's `__file__` nor ends in `.pyxres` is a
complete no-op (state, trace, flag all unchanged), and an event passing
the filter runs exactly the reload procedure `try_reload`. -/
theorem relevance_filter (reload : AppModule → Except Exc AppModule) (s : St)
    (ev : ChangeEvent) (evs : List ChangeEvent) :
    (s.app_module = none → process_batch reload s evs = (s, Except.ok ())) ∧
    (∀ m, s.app_module = some m →
      ((ev.path == m.file || strEndsWith ev.path ".pyxres") = false →
        process_change reload s ev = (s, Except.ok ())) ∧
      ((ev.path == m.file || strEndsWith ev.path ".pyxres") = true →
        process_change reload s ev = try_reload reload m s)) := by
  refine ⟨fun hm => by simp [process_batch, hm], fun m hm => ⟨fun hrel => ?_, fun hrel => ?_⟩⟩
  · simp [process_change, hm, hrel]
  · simp [process_change, hm, hrel]

/-- C3 witness: a batch arriving before import is dropped; a change to
`notes.txt` is ignored; a change to `game.py` enters the reload
procedure. -/
theorem relevance_filter_witness :
    process_batch reloadOk st0
      [{ kind := ChangeKind.modified, path := "game.py" }] = (st0, Except.ok ()) ∧
    process_change reloadOk stLoaded
      { kind := ChangeKind.modified, path := "notes.txt" } = (stLoaded, Except.ok ()) ∧
    process_change reloadOk stLoaded
      { kind := ChangeKind.modified, path := "game.py" }
      = try_reload reloadOk mOld stLoaded :=
  ⟨(relevance_filter reloadOk st0 { kind := ChangeKind.modified, path := "game.py" }
      [{ kind := ChangeKind.modified, path := "game.py" }]).1 rfl,
   ((relevance_filter reloadOk stLoaded { kind := ChangeKind.modified, path := "notes.txt" }
      []).2 mOld rfl).1 (by decide),
   ((relevance_filter reloadOk stLoaded { kind := ChangeKind.modified, path := "game.py" }
      []).2 mOld rfl).2 (by decide)⟩

/-- C9: the event kind is discarded (`for _, filename in changes`), so
two events with the same path and different kinds — in particular a
deletion versus a modification of the module's source file — are
processed identically. -/
theorem kind_irrelevant (reload : AppModule → Except Exc AppModule) (s : St)
    (k1 k2 : ChangeKind) (p : String) :
    process_change reload s { kind := k1, path := p }
      = process_change reload s { kind := k2, path := p } := rfl

/-- C10: with no module loaded and no fault, the wrapped `update` and
`draw` return normally, leave the state (flag and trace included)
untouched, and invoke no module code. -/
theorem idle_frame_noop (s : St) (hm : s.app_module = none) (he : s.error = false) :
    update s = (s, Except.ok ()) ∧ draw s = (s, Except.ok ()) := by
  constructor <;>
    simp [update, draw, catch_errors, he, update_inner, draw_inner, hm]

/-- C10 witness: the startup state before the initial import finishes. -/
theorem idle_frame_noop_witness :
    update st0 = (st0, Except.ok ()) ∧ draw st0 = (st0, Except.ok ()) :=
  idle_frame_noop st0 rfl rfl

/-! Helper lemmas for the success path and frame delegation. -/

theorem process_change_success (reload : AppModule → Except Exc AppModule)
    (s : St) (ev : ChangeEvent) (m m2 : AppModule)
    (hm : s.app_module = some m)
    (hrel : (ev.path == m.file || strEndsWith ev.path ".pyxres") = true)
    (hu : m.on_unload = none ∨ m.on_unload = some (Except.ok ()))
    (hr : reload m = Except.ok m2) :
    (process_change reload s ev).2 = Except.ok () ∧
    (process_change reload s ev).1.error = false ∧
    (process_change reload s ev).1.app_module = some m2 := by
  rcases hu with hu | hu <;>
    simp [process_change, hm, hrel, try_reload, hu, reload_module, hr,
      handle_successful_reload, emit]

theorem update_delegates (s : St) (m2 : AppModule)
    (he : s.error = false) (hm : s.app_module = some m2) :
    ∃ rest, (update s).1.trace = s.trace ++ (Effect.callUpdate m2.id :: rest) := by
  have hin : update_inner s = (emit s [Effect.callUpdate m2.id], m2.updateResult) := by
    simp [update_inner, hm]
  cases hres : m2.updateResult with
  | ok u =>
    refine ⟨[], ?_⟩
    simp [update, catch_errors, he, hin, hres, emit]
  | error e =>
    have h1 : update s = handle_error e (emit s [Effect.callUpdate m2.id]) := by
      simp [update, catch_errors, he, hin, hres]
    obtain ⟨d, hd⟩ := handle_error_trace_extend e (emit s [Effect.callUpdate m2.id])
    refine ⟨d, ?_⟩
    rw [h1, hd]
    simp [emit]

theorem draw_delegates (s : St) (m2 : AppModule)
    (he : s.error = false) (hm : s.app_module = some m2) :
    ∃ rest, (draw s).1.trace = s.trace ++ (Effect.callDraw m2.id :: rest) := by
  have hin : draw_inner s = (emit s [Effect.callDraw m2.id], m2.drawResult) := by
    simp [draw_inner, hm]
  cases hres : m2.drawResult with
  | ok u =>
    refine ⟨[], ?_⟩
    simp [draw, catch_errors, he, hin, hres, emit]
  | error e =>
    have h1 : draw s = handle_error e (emit s [Effect.callDraw m2.id]) := by
      simp [draw, catch_errors, he, hin, hres]
    obtain ⟨d, hd⟩ := handle_error_trace_extend e (emit s [Effect.callDraw m2.id])
    refine ⟨d, ?_⟩
    rw [h1, hd]
    simp [emit]

/-- C4: the fault flag is cleared exactly by a raise-free reload: while
the flag is set the wrapped `update`/`draw` do not delegate (the state is
returned untouched); a relevant event whose `on_unload` and reload both
return normally leaves `error = false` with the new module installed, and
the next tick's `update`/`draw` invoke the new module's callables; and
from a faulted state the flag ends up `false` precisely when the event
was relevant and `on_unload` and the reload raised nothing. -/
theorem fault_clear_iff_success (reload : AppModule → Except Exc AppModule)
    (s : St) (ev : ChangeEvent) (m m2 : AppModule) :
    (s.error = true → update s = (s, Except.ok ()) ∧ draw s = (s, Except.ok ())) ∧
    (s.app_module = some m →
      (ev.path == m.file || strEndsWith ev.path ".pyxres") = true →
      (m.on_unload = none ∨ m.on_unload = some (Except.ok ())) →
      reload m = Except.ok m2 →
      (process_change reload s ev).2 = Except.ok () ∧
      (process_change reload s ev).1.error = false ∧
      (process_change reload s ev).1.app_module = some m2 ∧
      (∃ rest, (update (process_change reload s ev).1).1.trace
        = (process_change reload s ev).1.trace ++ (Effect.callUpdate m2.id :: rest)) ∧
      (∃ rest, (draw (process_change reload s ev).1).1.trace
        = (process_change reload s ev).1.trace ++ (Effect.callDraw m2.id :: rest))) ∧
    (s.error = true → s.app_module = some m →
      ((process_change reload s ev).1.error = false ↔
        ((ev.path == m.file || strEndsWith ev.path ".pyxres") = true ∧
         (m.on_unload = none ∨ m.on_unload = some (Except.ok ())) ∧
         ∃ mr, reload m = Except.ok mr))) := by
  refine ⟨?_, ?_, ?_⟩
  · intro hs
    exact ⟨by simp [update, catch_errors, hs], by simp [draw, catch_errors, hs]⟩
  · intro hm hrel hu hr
    obtain ⟨hok, herr, happ⟩ := process_change_success reload s ev m m2 hm hrel hu hr
    exact ⟨hok, herr, happ, update_delegates _ m2 herr happ,
           draw_delegates _ m2 herr happ⟩
  · intro hs hm
    constructor
    · intro hfalse
      cases hrel : (ev.path == m.file || strEndsWith ev.path ".pyxres") with
      | false =>
        have hid : process_change reload s ev = (s, Except.ok ()) := by
          simp [process_change, hm, hrel]
        rw [hid] at hfalse
        simp [hs] at hfalse
      | true =>
        refine ⟨rfl, ?_⟩
        cases hu : m.on_unload with
        | none =>
          cases hr : reload m with
          | ok mr => exact ⟨Or.inl rfl, mr, rfl⟩
          | error e =>
            have hpc : process_change reload s ev = handle_error e s := by
              simp [process_change, hm, hrel, try_reload, hu, reload_module, hr]
            rw [hpc, handle_error_error_true e s] at hfalse
            exact Bool.noConfusion hfalse
        | some r =>
          cases r with
          | ok u =>
            cases hr : reload m with
            | ok mr => exact ⟨Or.inr rfl, mr, rfl⟩
            | error e =>
              have hpc : process_change reload s ev
                  = handle_error e (emit s [Effect.callOnUnload m.id]) := by
                simp [process_change, hm, hrel, try_reload, hu, reload_module, hr]
              rw [hpc, handle_error_error_true] at hfalse
              exact Bool.noConfusion hfalse
          | error e =>
            have hpc : process_change reload s ev
                = handle_error e (emit s [Effect.callOnUnload m.id]) := by
              simp [process_change, hm, hrel, try_reload, hu]
            rw [hpc, handle_error_error_true] at hfalse
            exact Bool.noConfusion hfalse
    · rintro ⟨hrel, hu, mr, hr⟩
      exact (process_change_success reload s ev m mr hm hrel hu hr).2.1

/-- C4 witness: a faulted state recovering through a successful reload of
`game.py`, after which the frame invokes the new module's callables. -/
theorem fault_clear_iff_success_witness :
    (update stFault = (stFault, Except.ok ()) ∧
      draw stFault = (stFault, Except.ok ())) ∧
    ((process_change reloadOk stFault
        { kind := ChangeKind.modified, path := "game.py" }).2 = Except.ok () ∧
      (process_change reloadOk stFault
        { kind := ChangeKind.modified, path := "game.py" }).1.error = false ∧
      (process_change reloadOk stFault
        { kind := ChangeKind.modified, path := "game.py" }).1.app_module = some mNew ∧
      (∃ rest, (update (process_change reloadOk stFault
          { kind := ChangeKind.modified, path := "game.py" }).1).1.trace
        = (process_change reloadOk stFault
            { kind := ChangeKind.modified, path := "game.py" }).1.trace
          ++ (Effect.callUpdate mNew.id :: rest)) ∧
      (∃ rest, (draw (process_change reloadOk stFault
          { kind := ChangeKind.modified, path := "game.py" }).1).1.trace
        = (process_change reloadOk stFault
            { kind := ChangeKind.modified, path := "game.py" }).1.trace
          ++ (Effect.callDraw mNew.id :: rest))) ∧
    ((process_change reloadOk stFault
        { kind := ChangeKind.modified, path := "game.py" }).1.error = false ↔
      (("game.py" == mOld.file || strEndsWith "game.py" ".pyxres") = true ∧
       (mOld.on_unload = none ∨ mOld.on_unload = some (Except.ok ())) ∧
       ∃ mr, reloadOk mOld = Except.ok mr)) := by
  have h := fault_clear_iff_success reloadOk stFault
    { kind := ChangeKind.modified, path := "game.py" } mOld mNew
  exact ⟨h.1 rfl, h.2.1 rfl (by decide) (Or.inl rfl) rfl, h.2.2 rfl rfl⟩

/-- C6: the line number `handle_error` renders is exactly the spec's
extraction rule `extracted_line` — the exception's own `lineno` for a
syntax error, the innermost (last) traceback frame's line otherwise — and
the overlay's second text line is the type name followed by that number. -/
theorem error_overlay_line (exc : Exc) (s : St) (h : exc.wellRaised = true) :
    (handle_error exc s).1.trace
      = s.trace ++ errorEffects exc (fmtLineno (extracted_line exc)) ∧
    Effect.text 10 20
        (exc.typeName ++ " at line number " ++ fmtLineno (extracted_line exc)) 8
      ∈ (handle_error exc s).1.trace := by
  have htr : (handle_error exc s).1.trace
      = s.trace ++ errorEffects exc (fmtLineno (extracted_line exc)) := by
    unfold handle_error
    by_cases hsy : exc.isSyntaxError = true
    · simp [hsy, emit, extracted_line]
    · simp only [Bool.not_eq_true] at hsy
      have htb : exc.tb ≠ [] := by
        unfold Exc.wellRaised at h
        simp [hsy] at h
        simpa [List.isEmpty_iff] using h
      cases hl : exc.tb.getLast? with
      | none => exact absurd (List.getLast?_eq_none_iff.mp hl) htb
      | some n => simp [hsy, hl, emit, extracted_line, fmtLineno]
  refine ⟨htr, ?_⟩
  rw [htr]
  simp [errorEffects]

/-- C6 witness: `ValueError("boom")` whose innermost frame is line 42. -/
theorem error_overlay_line_witness :
    (handle_error excBoom st0).1.trace
      = st0.trace ++ errorEffects excBoom (fmtLineno (extracted_line excBoom)) ∧
    Effect.text 10 20
        (excBoom.typeName ++ " at line number "
          ++ fmtLineno (extracted_line excBoom)) 8
      ∈ (handle_error excBoom st0).1.trace :=
  error_overlay_line excBoom st0 (by decide)

/-- C7: the init guard: once the sentinel is set every call is a no-op,
and a first call from an uninitialized state performs the real setup
exactly once — the result is built from a single application of `func`,
with the working directory restored to its pre-call value — after which
any number of further calls changes nothing. -/
theorem wrapped_init_of_initialized (func : PyxelSt → PyxelSt) (q : PyxelSt)
    (h : q.initialized = true) : wrapped_init func q = q := by
  simp [wrapped_init, h]

theorem init_guard_idempotent (func : PyxelSt → PyxelSt) (p : PyxelSt) (n : Nat) :
    (p.initialized = true → wrapped_init func p = p) ∧
    (p.initialized = false →
      wrapped_init func p = { func p with cwd := p.cwd, initialized := true } ∧
      (wrapped_init func)^[n] (wrapped_init func p) = wrapped_init func p) := by
  constructor
  · intro h
    simp [wrapped_init, h]
  · intro h
    have h1 : wrapped_init func p = { func p with cwd := p.cwd, initialized := true } := by
      simp [wrapped_init, h]
    refine ⟨h1, ?_⟩
    have hinit : (wrapped_init func p).initialized = true := by rw [h1]
    induction n with
    | zero => simp
    | succ k ih =>
      rw [Function.iterate_succ_apply]
      rw [wrapped_init_of_initialized func _ hinit, ih]

/-- C7 witness: first call from the uninitialized state, then three
further calls that change nothing. -/
theorem init_guard_idempotent_witness :
    wrapped_init initReal pStart
      = { initReal pStart with cwd := pStart.cwd, initialized := true } ∧
    (wrapped_init initReal)^[3] (wrapped_init initReal pStart)
      = wrapped_init initReal pStart :=
  (init_guard_idempotent initReal pStart 3).2 (by decide)

end PyxelReload
